import Mathlib

/-!
Verification development for the nestadia 6502 CPU core
(src/server/nestadia-core/src/cpu/mod.rs) and cartridge loader
(src/nestadia/src/cartridge/mod.rs).

Machine integers are embedded as `Nat` with explicit reduction:
`% 256` where the source wraps `u8`, `% 65536` where it wraps `u16`,
and the source's bitwise operators are kept as `&&&`, `|||`, `^^^`,
`<<<`, `>>>` on `Nat`.
-/

set_option maxRecDepth 100000

namespace Nestadia

/-! ### Status register flags (bitflags StatusRegister, cpu/mod.rs lines 31-42) -/

def flagC : Nat := 1
def flagZ : Nat := 2
def flagI : Nat := 4
def flagD : Nat := 8
def flagB : Nat := 16
def flagU : Nat := 32
def flagV : Nat := 64
def flagN : Nat := 128

/-- Embeds the `bitflags` `contains` test for a single-bit flag: `(bits &&& flag) == flag`. -/
def hasFlag (s flag : Nat) : Bool := (s &&& flag) == flag

/-- Embeds the `bitflags` `set` operation: insert the flag bits when `b`, remove them otherwise
(removal is `&` with the 8-bit complement of the flag). -/
def setFlag (s flag : Nat) (b : Bool) : Nat :=
  if b then s ||| flag else s &&& (flag ^^^ 255)

/-! ### CPU state (struct Cpu, cpu/mod.rs lines 44-55; `execution_mode` is
only used by the repository-specific `FlagAcc` opcode, which no claim
touches, so it is omitted) -/

structure Cpu where
  a : Nat
  x : Nat
  y : Nat
  st : Nat
  pc : Nat
  cycles : Nat
  status : Nat
deriving DecidableEq, Repr

/-! ### CPU bus

The `CpuBus` collaborator's `read_ram` / `write_ram` / PPU / controller /
PRG methods live outside this repository (spec §4.6, §6); they are
embedded as plain state: a RAM function (reads masked with 0x07FF per
spec §4.6), abstract PPU and controller read values, and a PRG read
function.  The address dispatch below is the `impl CpuBus` at
cpu/mod.rs lines 1545-1568.  Writes to the PPU / controller / APU
ranges only affect those external collaborators, so they leave this
bus state unchanged; writes at 0x4020+ go to mapper registers, never
to PRG ROM storage (spec §4.2), so they also leave the PRG function
unchanged. -/

structure Bus where
  ram : Nat → Nat
  ppu : Nat → Nat
  ctrl1 : Nat
  ctrl2 : Nat
  prg : Nat → Nat

def Bus.read (bus : Bus) (addr : Nat) : Nat :=
  if addr ≤ 0x1FFF then bus.ram (addr &&& 0x7FF) % 256
  else if addr ≤ 0x3FFF then bus.ppu addr % 256
  else if addr ≤ 0x4015 then 0
  else if addr = 0x4016 then bus.ctrl1 % 256
  else if addr = 0x4017 then bus.ctrl2 % 256
  else if addr ≤ 0x401F then 0
  else bus.prg addr % 256

def Bus.write (bus : Bus) (addr data : Nat) : Bus :=
  if addr ≤ 0x1FFF then
    { bus with ram := fun i => if i = (addr &&& 0x7FF) then data % 256 else bus.ram i }
  else bus

/-! ### Addressing modes (cpu/mod.rs lines 942-1040) -/

/-- Addressing mode `am_imm`: advance PC, return the byte at the old PC. -/
def am_imm (cpu : Cpu) (bus : Bus) : Cpu × Nat :=
  let cpu := { cpu with pc := (cpu.pc + 1) % 65536 }
  (cpu, bus.read ((cpu.pc + 65535) % 65536))

/-- Addressing mode `am_zp`: advance PC, effective address is the byte at the old PC
zero-extended (`& 0x00ff`). -/
def am_zp (cpu : Cpu) (bus : Bus) : Cpu × Nat :=
  let cpu := { cpu with pc := (cpu.pc + 1) % 65536 }
  (cpu, bus.read ((cpu.pc + 65535) % 65536) &&& 0xFF)

/-- Addressing mode `am_ind` (JMP indirect): read a 16-bit pointer at PC, then read the
16-bit target through it.  The source's page-end test is
`ptr | 0x00ff == 0x00ff` (cpu/mod.rs line 999), kept verbatim here. -/
def am_ind (cpu : Cpu) (bus : Bus) : Cpu × Nat :=
  let cpu := { cpu with pc := (cpu.pc + 2) % 65536 }
  let ptr := bus.read ((cpu.pc + 65534) % 65536) |||
             (bus.read ((cpu.pc + 65535) % 65536) <<< 8)
  if ptr ||| 0xFF = 0xFF then
    (cpu, bus.read ptr ||| (bus.read (ptr &&& 0xFF00) <<< 8))
  else
    (cpu, bus.read ptr ||| (bus.read ((ptr + 1) % 65536) <<< 8))

/-- Addressing mode `am_izx`: pointer is `(operand byte + X) & 0xff`; the 16-bit effective
address is read from the zero page with both bytes wrapped to the zero
page. -/
def am_izx (cpu : Cpu) (bus : Bus) : Cpu × Nat :=
  let cpu := { cpu with pc := (cpu.pc + 1) % 65536 }
  let ptr := ((bus.read ((cpu.pc + 65535) % 65536) + cpu.x) % 256) &&& 0xFF
  (cpu, bus.read ptr ||| (bus.read ((ptr + 1) &&& 0xFF) <<< 8))

/-- Addressing mode `am_rel`: advance PC, sign-extend the offset byte at the old PC to
16 bits. -/
def am_rel (cpu : Cpu) (bus : Bus) : Cpu × Nat :=
  let cpu := { cpu with pc := (cpu.pc + 1) % 65536 }
  let address := bus.read ((cpu.pc + 65535) % 65536)
  if address &&& 0x80 = 0x80 then (cpu, address ||| 0xFF00) else (cpu, address)

/-! ### Stack helpers (cpu/mod.rs lines 1520-1529); STACK_BASE = 0x0100 -/

def stack_push (cpu : Cpu) (bus : Bus) (data : Nat) : Cpu × Bus :=
  let bus := bus.write ((0x100 + cpu.st) % 65536) data
  ({ cpu with st := (cpu.st + 255) % 256 }, bus)

def stack_pop (cpu : Cpu) (bus : Bus) : Cpu × Nat :=
  let cpu := { cpu with st := (cpu.st + 1) % 256 }
  (cpu, bus.read ((0x100 + cpu.st) % 65536))

/-! ### Instruction semantics -/

/-- Instruction `inst_adc` (cpu/mod.rs lines 1043-1067), kept exactly as written:
the 9-bit-carry assignment to C is immediately overwritten by a second
assignment to C computed from the signed-overflow formula, and V is
never assigned. -/
def inst_adc (cpu : Cpu) (op : Nat) : Cpu :=
  let result := (cpu.a + op) % 65536
  let result := if hasFlag cpu.status flagC then (result + 1) % 65536 else result
  let c := result > 0xFF
  let status := setFlag cpu.status flagC c
  let r := result &&& 0xFF
  let v := ((cpu.a ^^^ r) &&& ((cpu.a ^^^ op) ^^^ 255)) &&& 0x80 = 0x80
  let status := setFlag status flagC v
  let a := r
  let status := setFlag status flagZ (a == 0)
  let status := setFlag status flagN ((a &&& 0x80) == 0x80)
  { cpu with a := a, status := status }

/-- Instruction `inst_bit` (cpu/mod.rs lines 1111-1119): Z, V and N are all computed
from `result = a & op`. -/
def inst_bit (cpu : Cpu) (op : Nat) : Cpu :=
  let result := cpu.a &&& op
  let status := setFlag cpu.status flagZ (result == 0)
  let status := setFlag status flagV ((result &&& 64) > 0)
  let status := setFlag status flagN ((result &&& 128) > 0)
  { cpu with status := status }

/-- Instruction `inst_asl` (cpu/mod.rs lines 1079-1091): C from bit 7 of the operand;
Z and N are computed from the accumulator `a`, not from the shifted
result.  Returns the shifted result (u8, so `<<< 1` wraps mod 256). -/
def inst_asl (cpu : Cpu) (op : Nat) : Cpu × Nat :=
  let status := setFlag cpu.status flagC ((op &&& 0x80) == 0x80)
  let result := (op <<< 1) % 256
  let status := setFlag status flagZ (cpu.a == 0)
  let status := setFlag status flagN ((cpu.a &&& 0x80) == 0x80)
  ({ cpu with status := status }, result)

/-- Instruction `inst_rol` (cpu/mod.rs lines 1385-1402): rotate left through carry;
Z is assigned twice (from `result == 0`, then from bit 7 of the result)
and N is never assigned. -/
def inst_rol (cpu : Cpu) (op : Nat) : Cpu × Nat :=
  let carry := hasFlag cpu.status flagC
  let status := setFlag cpu.status flagC ((op &&& 128) > 0)
  let result := (op <<< 1) % 256
  let result := if carry then result ||| 1 else result
  let status := setFlag status flagZ (result == 0)
  let status := setFlag status flagZ ((result &&& 128) > 0)
  ({ cpu with status := status }, result)

/-- Instruction `inst_ror` (cpu/mod.rs lines 1404-1421): rotate right through carry;
Z is assigned twice (from `result == 0`, then from bit 7 of the result)
and N is never assigned. -/
def inst_ror (cpu : Cpu) (op : Nat) : Cpu × Nat :=
  let carry := hasFlag cpu.status flagC
  let status := setFlag cpu.status flagC ((op &&& 1) > 0)
  let result := op >>> 1
  let result := if carry then result ||| 128 else result
  let status := setFlag status flagZ (result == 0)
  let status := setFlag status flagZ ((result &&& 128) > 0)
  ({ cpu with status := status }, result)

/-- Instruction `inst_cmp` (cpu/mod.rs lines 1186-1196): C iff `a >= op`, Z iff the
wrapping difference is 0, N from bit 7 of the difference. -/
def inst_cmp (cpu : Cpu) (op : Nat) : Cpu :=
  let result := (cpu.a + 256 - op % 256) % 256
  let status := setFlag cpu.status flagC (cpu.a ≥ op)
  let status := setFlag status flagZ (result == 0)
  let status := setFlag status flagN ((result &&& 128) > 0)
  { cpu with status := status }

def inst_jmp (cpu : Cpu) (address : Nat) : Cpu :=
  { cpu with pc := address }

/-- Instruction `inst_pha` (cpu/mod.rs lines 1355-1357). -/
def inst_pha (cpu : Cpu) (bus : Bus) : Cpu × Bus :=
  stack_push cpu bus cpu.a

/-- Instruction `inst_php` (cpu/mod.rs lines 1359-1367): set B and U, push the status
byte, then clear B and U. -/
def inst_php (cpu : Cpu) (bus : Bus) : Cpu × Bus :=
  let status := setFlag (setFlag cpu.status flagB true) flagU true
  let cpu := { cpu with status := status }
  let p := stack_push cpu bus cpu.status
  let status := setFlag (setFlag p.1.status flagB false) flagU false
  ({ p.1 with status := status }, p.2)

/-- Instruction `inst_pla` (cpu/mod.rs lines 1369-1377): pop A, set Z and N from it. -/
def inst_pla (cpu : Cpu) (bus : Bus) : Cpu :=
  let p := stack_pop cpu bus
  let cpu := { p.1 with a := p.2 }
  let status := setFlag cpu.status flagZ (cpu.a == 0)
  let status := setFlag status flagN ((cpu.a &&& 0x80) == 0x80)
  { cpu with status := status }

/-- Instruction `inst_plp` (cpu/mod.rs lines 1379-1383): pop the status byte
(`from_bits_truncate` keeps all 8 bits since every bit is a defined
flag), then clear B and U. -/
def inst_plp (cpu : Cpu) (bus : Bus) : Cpu :=
  let p := stack_pop cpu bus
  let status := p.2 &&& 255
  let status := setFlag (setFlag status flagB false) flagU false
  { p.1 with status := status }

/-- Helper `branch` (cpu/mod.rs lines 1531-1542): +1 cycle, and +1 more when the
target's page differs from the current PC's page. -/
def branch (cpu : Cpu) (offset : Nat) : Cpu :=
  let cpu := { cpu with cycles := (cpu.cycles + 1) % 256 }
  let result := (cpu.pc + offset) % 65536
  let cpu :=
    if (result &&& 0xFF00) ≠ (cpu.pc &&& 0xFF00) then
      { cpu with cycles := (cpu.cycles + 1) % 256 }
    else cpu
  { cpu with pc := result }

/-- Instruction `inst_beq` (cpu/mod.rs lines 1105-1109): branch when Z is set. -/
def inst_beq (cpu : Cpu) (offset : Nat) : Cpu :=
  if hasFlag cpu.status flagZ then branch cpu offset else cpu

/-- Method `Cpu::reset` (cpu/mod.rs lines 71-79): clear A/X/Y, S = 0xFD,
cycles = 8, status = U only, PC from the RESET vector 0xFFFC/0xFFFD. -/
def resetCpu (cpu : Cpu) (bus : Bus) : Cpu :=
  { cpu with
    a := 0, x := 0, y := 0, st := 0xFD, cycles := 8,
    status := 0 ||| flagU,
    pc := bus.read 0xFFFC ||| (bus.read (0xFFFC + 1) <<< 8) }

/-! ### Clock steps for the decoded arms the claims exercise

`Cpu::clock` (cpu/mod.rs lines 121-940) fetches the opcode byte at PC
through the opcode table (cpu/opcode.rs, not part of the provided
sources), advances PC, runs the arm for the decoded opcode, adds the
opcode's base cycle count and finally decrements the cycle counter.
The steps below embed the clock body for a single already-decoded arm. -/

/-- Modelled from the spec: the opcode descriptor table (§4.4) is not in
the provided sources; per spec §8 S5 ("2 base"), the BEQ base cycle
count is 2. -/
def beqBaseCycles : Nat := 2

/-- The `Opcode::Beq` arm of `Cpu::clock` (cpu/mod.rs lines 884-887)
together with the surrounding clock body (lines 121-131, 937-939). -/
def clockBeq (cpu : Cpu) (bus : Bus) : Cpu :=
  if cpu.cycles = 0 then
    let cpu := { cpu with pc := (cpu.pc + 1) % 65536 }
    let p := am_rel cpu bus
    let cpu := inst_beq p.1 p.2
    let cpu := { cpu with cycles := (cpu.cycles + beqBaseCycles) % 256 }
    { cpu with cycles := cpu.cycles - 1 }
  else
    { cpu with cycles := cpu.cycles - 1 }

/-- The `Opcode::JmpInd` arm of `Cpu::clock` (cpu/mod.rs lines 456-459):
`am_ind` then `inst_jmp` (cycle bookkeeping omitted, PC is all the
claim observes). -/
def jmpIndStep (cpu : Cpu) (bus : Bus) : Cpu :=
  let p := am_ind cpu bus
  inst_jmp p.1 p.2

/-- The `Opcode::CmpZp` arm of `Cpu::clock` (cpu/mod.rs lines 742-746):
the source resolves the operand through `am_izx`, not `am_zp`. -/
def cmpZpStep (cpu : Cpu) (bus : Bus) : Cpu :=
  let p := am_izx cpu bus
  inst_cmp p.1 (bus.read p.2)

/-- PHA immediately followed by PLA at instruction-semantics level. -/
def phaPla (cpu : Cpu) (bus : Bus) : Cpu :=
  let p := inst_pha cpu bus
  inst_pla p.1 p.2

/-- PHP immediately followed by PLP at instruction-semantics level. -/
def phpPlp (cpu : Cpu) (bus : Bus) : Cpu :=
  let p := inst_php cpu bus
  inst_plp p.1 p.2

/-! ### Concrete inputs used by the scenario evaluations -/

def cpu0 : Cpu := { a := 0, x := 0, y := 0, st := 0xFD, pc := 0, cycles := 0, status := 0 }

/-- A=0x50, C=0, about to execute `ADC #$50` (spec scenario S2). -/
def adcCpu : Cpu := { cpu0 with a := 0x50 }

/-- C1: executing ADC with A=0x50, C=0 and operand M=0x50 on the code as
written yields A=0xA0, N=1, Z=0, but C=1 (the second assignment to C
stores the signed-overflow bit there) and V=0 (V is never assigned),
while the claim requires C=0 and V=1. -/
theorem c1_adc_flags_on_code :
    (inst_adc adcCpu 0x50).a = 0xA0 ∧
    hasFlag (inst_adc adcCpu 0x50).status flagN = true ∧
    hasFlag (inst_adc adcCpu 0x50).status flagZ = false ∧
    hasFlag (inst_adc adcCpu 0x50).status flagC = true ∧
    hasFlag (inst_adc adcCpu 0x50).status flagV = false := by
  decide

/-- Bus for spec scenario S4: the program at 0x8000 is the operand bytes
of `JMP ($10FF)` (pointer 0x10FF, little-endian FF 10), and RAM holds
0x10FF=0x34, 0x1000=0x12, 0x1100=0xAB (RAM indices are the addresses
masked with 0x7FF: 0x0FF, 0x000, 0x100). -/
def jmpIndBus : Bus :=
  { ram := fun i => if i = 0x0FF then 0x34 else if i = 0x000 then 0x12
                    else if i = 0x100 then 0xAB else 0,
    ppu := fun _ => 0, ctrl1 := 0, ctrl2 := 0,
    prg := fun a => if a = 0x8000 then 0xFF else if a = 0x8001 then 0x10 else 0 }

/-- CPU just after fetching the JMP-indirect opcode byte: PC at the
operand bytes. -/
def jmpIndCpu : Cpu := { cpu0 with pc := 0x8000 }

/-- C2: on the code as written, `JMP ($10FF)` with 0x10FF=0x34,
0x1000=0x12, 0x1100=0xAB loads PC=0xAB34 — the page-end test
`ptr | 0x00ff == 0x00ff` only fires for pointers inside page zero, so
the high byte is read from 0x1100, not from 0x1000 — whereas the claim
requires PC=0x1234. -/
theorem c2_jmp_indirect_on_code :
    (jmpIndStep jmpIndCpu jmpIndBus).pc = 0xAB34 ∧ (0xAB34 : Nat) ≠ 0x1234 := by
  decide

/-- C3: executing BIT with A=0x00 and M=0xFF on the code as written
leaves V=0 and N=0 (both are computed from bits of `A & M = 0`), while
the claim requires V=1 and N=1 (bits 6 and 7 of M); Z=1 on both
readings. -/
theorem c3_bit_flags_on_code :
    hasFlag (inst_bit cpu0 0xFF).status flagZ = true ∧
    hasFlag (inst_bit cpu0 0xFF).status flagV = false ∧
    hasFlag (inst_bit cpu0 0xFF).status flagN = false := by
  decide

def aslCpu : Cpu := { cpu0 with a := 0x80 }

def rorCpu : Cpu := { cpu0 with status := flagC }

/-- C4: three counter-evaluations of the shift/rotate flag updates.
ASL of 0x80 in accumulator mode (A=0x80): the result is 0x00 and the
shifted-out bit goes to C, but the code computes Z and N from the stale
accumulator, leaving Z=0 and N=1 where the claim requires Z=1, N=0.
ROL of 0x40 with C=0: the result is 0x80, yet the code assigns Z twice
(ending with bit 7 of the result, so Z=1) and never assigns N (N=0),
where the claim requires Z=0, N=1.  ROR of 0x02 with C=1: the result is
0x81, and the code again ends with Z=1, N=0 where the claim requires
Z=0, N=1. -/
theorem c4_shift_rotate_flags_on_code :
    ((inst_asl aslCpu 0x80).2 = 0 ∧
     hasFlag (inst_asl aslCpu 0x80).1.status flagC = true ∧
     hasFlag (inst_asl aslCpu 0x80).1.status flagZ = false ∧
     hasFlag (inst_asl aslCpu 0x80).1.status flagN = true) ∧
    ((inst_rol cpu0 0x40).2 = 0x80 ∧
     hasFlag (inst_rol cpu0 0x40).1.status flagZ = true ∧
     hasFlag (inst_rol cpu0 0x40).1.status flagN = false) ∧
    ((inst_ror rorCpu 0x02).2 = 0x81 ∧
     hasFlag (inst_ror rorCpu 0x02).1.status flagC = false ∧
     hasFlag (inst_ror rorCpu 0x02).1.status flagZ = true ∧
     hasFlag (inst_ror rorCpu 0x02).1.status flagN = false) := by
  decide

/-- Bus for the CMP zero-page evaluation: the operand byte at PC=0x8000
is 0x10; RAM holds 0x0010=0x34, 0x0011=0x12 and 0x1234=0x99 (RAM index
0x234). -/
def cmpZpBus : Bus :=
  { ram := fun i => if i = 0x10 then 0x34 else if i = 0x11 then 0x12
                    else if i = 0x234 then 0x99 else 0,
    ppu := fun _ => 0, ctrl1 := 0, ctrl2 := 0,
    prg := fun a => if a = 0x8000 then 0x10 else 0 }

/-- CPU just after fetching the CMP zero-page opcode byte: A=0x34, X=0,
PC at the operand byte. -/
def cmpZpCpu : Cpu := { cpu0 with a := 0x34, pc := 0x8000 }

/-- C5: the `CmpZp` arm resolves its operand through `am_izx`, so with
operand byte 0x10, X=0, mem[0x0010]=0x34, mem[0x0011]=0x12 it compares
A against mem[0x1234]=0x99 instead of mem[0x0010]=0x34.  With A=0x34
the claim (zp addressing) requires C=1 and Z=1 (A = M), but the code
compares 0x34 against 0x99 and leaves C=0, Z=0.  The effective address
produced is 0x1234, not the zero-extended operand 0x0010. -/
theorem c5_cmp_zp_on_code :
    (am_izx cmpZpCpu cmpZpBus).2 = 0x1234 ∧
    cmpZpBus.read 0x10 = 0x34 ∧
    hasFlag (cmpZpStep cmpZpCpu cmpZpBus).status flagC = false ∧
    hasFlag (cmpZpStep cmpZpCpu cmpZpBus).status flagZ = false := by
  decide

/-- The sign-extended branch offset byte read at `addr`, as computed by
`am_rel`. -/
def relOffsetAt (bus : Bus) (addr : Nat) : Nat :=
  let address := bus.read addr
  if address &&& 0x80 = 0x80 then address ||| 0xFF00 else address

/-- Bus for spec scenario S5: `BEQ +4` at 0x80FE (opcode 0xF0, offset
byte 0x04 at 0x80FF, read from the cartridge PRG space). -/
def beqBus : Bus :=
  { ram := fun _ => 0, ppu := fun _ => 0, ctrl1 := 0, ctrl2 := 0,
    prg := fun a => if a = 0x80FE then 0xF0 else if a = 0x80FF then 0x04 else 0 }

/-- CPU at PC=0x80FE with Z=1, ready to execute the BEQ. -/
def beqCpu : Cpu := { cpu0 with pc := 0x80FE, status := flagZ }

/-- C6 counterexample: the claimed total of 4 cycles would leave a cycle
debt of 3 after the executing `clock` call (the call itself consumes
one), but running `BEQ +4` from PC=0x80FE with Z=1 leaves a debt of 2
(total cost 3 = 2 base + 1 taken): the page-cross test compares the
target 0x8104 against the PC after the operand fetch, 0x8100, which is
in the same page.  The final PC is 0x8104 as the claim states. -/
theorem c6_beq_page_cross_counterexample :
    (clockBeq beqCpu beqBus).cycles = 2 ∧
    (clockBeq beqCpu beqBus).pc = 0x8104 ∧
    ¬ (clockBeq beqCpu beqBus).cycles = 3 := by
  decide

/-- C6 (amended): for any state at an instruction boundary with Z set,
executing the BEQ step jumps to `(PC + 2) + sign_ext(offset)` (mod
2^16) and leaves a cycle debt of base (2) + 1 taken + 1 more exactly
when the target's page differs from that of the post-operand PC, minus
the one cycle the executing call consumes. -/
theorem c6_taken_branch_cycles (cpu : Cpu) (bus : Bus)
    (hc : cpu.cycles = 0) (hz : hasFlag cpu.status flagZ = true) :
    (clockBeq cpu bus).pc =
      ((cpu.pc + 2) % 65536 + relOffsetAt bus ((cpu.pc + 1) % 65536)) % 65536 ∧
    (clockBeq cpu bus).cycles =
      beqBaseCycles + 1 +
        (if (((cpu.pc + 2) % 65536 + relOffsetAt bus ((cpu.pc + 1) % 65536)) % 65536) &&& 0xFF00
            = ((cpu.pc + 2) % 65536) &&& 0xFF00
         then 0 else 1) - 1 := by
  have h1 : ((cpu.pc + 1) % 65536 + 1) % 65536 = (cpu.pc + 2) % 65536 := by omega
  have h2 : ((cpu.pc + 2) % 65536 + 65535) % 65536 = (cpu.pc + 1) % 65536 := by omega
  simp [clockBeq, am_rel, inst_beq, branch, relOffsetAt, hc, hz, beqBaseCycles, h1, h2]
  split_ifs <;> simp_all

/-- C6 witness: the amended theorem instantiated at the S5 scenario. -/
theorem c6_taken_branch_cycles_witness :
    (clockBeq beqCpu beqBus).pc =
      ((beqCpu.pc + 2) % 65536 + relOffsetAt beqBus ((beqCpu.pc + 1) % 65536)) % 65536 ∧
    (clockBeq beqCpu beqBus).cycles =
      beqBaseCycles + 1 +
        (if (((beqCpu.pc + 2) % 65536 + relOffsetAt beqBus ((beqCpu.pc + 1) % 65536)) % 65536) &&& 0xFF00
            = ((beqCpu.pc + 2) % 65536) &&& 0xFF00
         then 0 else 1) - 1 :=
  c6_taken_branch_cycles beqCpu beqBus (by decide) (by decide)

/-! ### Generic byte/bus lemmas shared by several claims -/

lemma lor_lowbyte (a b : Nat) (ha : a < 256) : a ||| (b <<< 8) = a + 256 * b := by
  have ha8 : a < 2 ^ 8 := by simpa using ha
  have h := Nat.mul_add_lt_is_or ha8 b
  have hb : b <<< 8 = 2 ^ 8 * b := by
    rw [Nat.shiftLeft_eq, Nat.mul_comm]
  rw [hb, Nat.lor_comm, ← h]
  simp only [Nat.pow_succ, Nat.pow_zero]
  omega


lemma and_2047_eq_mod (x : Nat) : x &&& 2047 = x % 2048 := by
  have : (2047 : Nat) = 2 ^ 11 - 1 := by norm_num
  rw [this, Nat.and_pow_two_sub_one_eq_mod]

lemma busRead_lt (bus : Bus) (addr : Nat) : bus.read addr < 256 := by
  unfold Bus.read
  split_ifs <;> omega

lemma write_read_back (bus : Bus) (addr d : Nat) (h : addr ≤ 0x1FFF) :
    (bus.write addr d).read addr = d % 256 := by
  unfold Bus.write Bus.read
  simp [h]

/-- C7: after `reset`, for every prior CPU state and bus: A = X = Y = 0,
S = 0xFD, status = U only (0x20), cycle debt 8, and PC is the
little-endian word read through the bus at 0xFFFC / 0xFFFD. -/
theorem c7_reset_state (cpu : Cpu) (bus : Bus) :
    (resetCpu cpu bus).a = 0 ∧ (resetCpu cpu bus).x = 0 ∧ (resetCpu cpu bus).y = 0 ∧
    (resetCpu cpu bus).st = 0xFD ∧ (resetCpu cpu bus).status = 0x20 ∧
    (resetCpu cpu bus).cycles = 8 ∧
    (resetCpu cpu bus).pc = bus.read 0xFFFC + 256 * bus.read 0xFFFD := by
  refine ⟨rfl, rfl, rfl, rfl, rfl, rfl, ?_⟩
  show bus.read 0xFFFC ||| (bus.read (0xFFFC + 1) <<< 8) = _
  exact lor_lowbyte _ _ (busRead_lt bus 0xFFFC)

/-! ### Status-bit lemmas (checked over all 8-bit status values) -/

lemma flagZ_of_setZN : ∀ s, s < 256 → ∀ b1 b2 : Bool,
    hasFlag (setFlag (setFlag s flagZ b1) flagN b2) flagZ = b1 := by decide

lemma flagN_of_setZN : ∀ s, s < 256 → ∀ b1 b2 : Bool,
    hasFlag (setFlag (setFlag s flagZ b1) flagN b2) flagN = b2 := by decide

lemma php_plp_status_eq : ∀ s, s < 256 →
    setFlag (setFlag ((setFlag (setFlag s flagB true) flagU true % 256) &&& 255) flagB false)
      flagU false = s &&& 0xCF := by decide

lemma flagB_and_CF : ∀ s, s < 256 → hasFlag (s &&& 0xCF) flagB = false := by decide

lemma flagU_and_CF : ∀ s, s < 256 → hasFlag (s &&& 0xCF) flagU = false := by decide

/-- C8: with stack memory as ordinary bus RAM, PHA;PLA restores A and the
stack pointer and sets Z and N from A, and PHP;PLP restores the stack
pointer and every status bit except B and U, which are left cleared. -/
theorem c8_stack_roundtrips (cpu : Cpu) (bus : Bus)
    (ha : cpu.a < 256) (hst : cpu.st < 256) (hs : cpu.status < 256) :
    (phaPla cpu bus).a = cpu.a ∧
    (phaPla cpu bus).st = cpu.st ∧
    hasFlag (phaPla cpu bus).status flagZ = (cpu.a == 0) ∧
    hasFlag (phaPla cpu bus).status flagN = ((cpu.a &&& 0x80) == 0x80) ∧
    (phpPlp cpu bus).st = cpu.st ∧
    (phpPlp cpu bus).status = cpu.status &&& 0xCF ∧
    hasFlag (phpPlp cpu bus).status flagB = false ∧
    hasFlag (phpPlp cpu bus).status flagU = false := by
  have e1 : ((cpu.st + 255) % 256 + 1) % 256 = cpu.st := by omega
  have e2 : (0x100 + cpu.st) % 65536 = 0x100 + cpu.st := by omega
  have hle : 0x100 + cpu.st ≤ 0x1FFF := by omega
  have hamod : cpu.a % 256 = cpu.a := Nat.mod_eq_of_lt ha
  simp [phaPla, inst_pha, inst_pla, phpPlp, inst_php, inst_plp, stack_push, stack_pop,
        e1, e2, hle, hamod, write_read_back, flagZ_of_setZN _ hs, flagN_of_setZN _ hs,
        php_plp_status_eq _ hs, flagB_and_CF _ hs, flagU_and_CF _ hs]

/-- All-zero bus used to instantiate the universal stack theorem. -/
def busZero : Bus :=
  { ram := fun _ => 0, ppu := fun _ => 0, ctrl1 := 0, ctrl2 := 0, prg := fun _ => 0 }

/-- A CPU state with a nonzero accumulator and B and U set in the status,
used to instantiate the universal stack theorem. -/
def c8Cpu : Cpu := { cpu0 with a := 0x42, status := 0xB5 }

/-- C8 witness: the round-trip theorem instantiated at A=0x42,
status=0xB5, S=0xFD on the all-zero bus. -/
theorem c8_stack_roundtrips_witness :
    (phaPla c8Cpu busZero).a = c8Cpu.a ∧
    (phaPla c8Cpu busZero).st = c8Cpu.st ∧
    hasFlag (phaPla c8Cpu busZero).status flagZ = (c8Cpu.a == 0) ∧
    hasFlag (phaPla c8Cpu busZero).status flagN = ((c8Cpu.a &&& 0x80) == 0x80) ∧
    (phpPlp c8Cpu busZero).st = c8Cpu.st ∧
    (phpPlp c8Cpu busZero).status = c8Cpu.status &&& 0xCF ∧
    hasFlag (phpPlp c8Cpu busZero).status flagB = false ∧
    hasFlag (phpPlp c8Cpu busZero).status flagU = false :=
  c8_stack_roundtrips c8Cpu busZero (by decide) (by decide) (by decide)

/-! ## Cartridge loading and memory access
(src/nestadia/src/cartridge/mod.rs)

The `ines_header` module and the per-mapper modules referenced there are
not part of the provided sources; the header parser is modelled from the
spec (§4.1, §6) and the mapper trait methods appear as function
parameters. -/

inductive RomParserError
  | TooShort
  | InvalidMagicBytes
  | MapperNotImplemented
deriving DecidableEq, Repr

structure INesHeader where
  prg_size : Nat
  chr_size : Nat
  flags6 : Nat
  mapper_id : Nat
deriving DecidableEq, Repr

/-- iNES magic bytes `N E S 0x1A` at offsets 0-3 (spec §6). -/
def validMagic (rom : List Nat) : Bool :=
  rom.getD 0 0 == 0x4E && rom.getD 1 0 == 0x45 &&
  rom.getD 2 0 == 0x53 && rom.getD 3 0 == 0x1A

/-- The mapper identifier `(flags7 & 0xF0) | (flags6 >> 4)` (spec §4.1). -/
def mapperId (rom : List Nat) : Nat :=
  (rom.getD 7 0 &&& 0xF0) ||| (rom.getD 6 0 >>> 4)

/-- Modelled from the spec: `INesHeader::try_from` lives in the
`ines_header` module, which is not in the provided sources.  Per spec
§4.1 and §6 it returns `TooShort` for slices under 16 bytes,
`InvalidMagicBytes` when bytes 0-3 are not `N E S 0x1A`, and otherwise
a record with PRG count (byte 4), CHR count (byte 5), flag byte 6, and
the mapper id `(flags7 & 0xF0) | (flags6 >> 4)`. -/
def INesHeader.tryFrom (rom : List Nat) : Except RomParserError INesHeader :=
  if rom.length < 16 then .error .TooShort
  else if validMagic rom then
    .ok { prg_size := rom.getD 4 0, chr_size := rom.getD 5 0,
          flags6 := rom.getD 6 0, mapper_id := mapperId rom }
  else .error .InvalidMagicBytes

/-- The mapper ids `Cartridge::load` dispatches on (cartridge/mod.rs
lines 90-98): 0, 1, 2, 3, 4 and 66; any other id yields
`MapperNotImplemented`. -/
def supportedMapper (id : Nat) : Bool :=
  id == 0 || id == 1 || id == 2 || id == 3 || id == 4 || id == 66

/-- The cartridge, with the polymorphic `Box<dyn Mapper>` instance
abstracted to the id it was constructed from (no claim observes
per-mapper state through `load`). -/
structure Cartridge where
  chr_ram : Bool
  prg_memory : List Nat
  chr_memory : List Nat
  mapper_id : Nat
deriving DecidableEq, Repr

/-- Method `Cartridge::load` (cartridge/mod.rs lines 74-141): parse the header,
dispatch on the mapper id (`MapperNotImplemented` for unknown ids),
compute the expected ROM length
`prg_start + 16384·PRG + 8192·CHR` with
`prg_start = 16 + (trainer ? 512 : 0)` (trainer = bit 2 of flags 6),
fail with `TooShort` when the input is shorter, and otherwise copy the
PRG bytes and either copy the CHR bytes or allocate 8 KiB of zeroed
CHR-RAM when the CHR count is 0.  `save_data` is only handed to the
mapper, which is abstracted here, so it is omitted. -/
def Cartridge.load (rom : List Nat) : Except RomParserError Cartridge :=
  match INesHeader.tryFrom rom with
  | .error e => .error e
  | .ok header =>
    if supportedMapper header.mapper_id then
      let chr_memory_len := 8192 * header.chr_size
      let prg_memory_len := 16384 * header.prg_size
      let prg_start := if (header.flags6 &&& 4) == 4 then 512 + 16 else 16
      let expected_rom_size := prg_start + prg_memory_len + chr_memory_len
      if rom.length < expected_rom_size then .error .TooShort
      else
        let prg_end := prg_start + prg_memory_len
        let prg_memory := ((rom.drop prg_start).take prg_memory_len)
        let chr_ram := header.chr_size == 0
        let chr_memory :=
          if !chr_ram then ((rom.drop prg_end).take chr_memory_len)
          else List.replicate 8192 0
        .ok { chr_ram := chr_ram, prg_memory := prg_memory,
              chr_memory := chr_memory, mapper_id := header.mapper_id }
    else .error .MapperNotImplemented

/-- The expected ROM length of the claim:
`16 + (trainer ? 512 : 0) + 16384·PRG + 8192·CHR` (trainer = bit 2 of
flag byte 6), read off the header bytes. -/
def expectedRomSize (rom : List Nat) : Nat :=
  (if (rom.getD 6 0 &&& 4) == 4 then 512 + 16 else 16) +
    16384 * rom.getD 4 0 + 8192 * rom.getD 5 0

/-- A 16-byte input with valid magic, PRG count 1, CHR count 0 and
mapper id 5 (flag byte 6 = 0x50): shorter than the expected
16 + 16384 bytes, yet `load` dispatches on the mapper id before
checking the length. -/
def c9Rom : List Nat :=
  [0x4E, 0x45, 0x53, 0x1A, 1, 0, 0x50, 0, 0, 0, 0, 0, 0, 0, 0, 0]

/-- C9 counterexample: `c9Rom` is shorter than
`16 + (trainer?512:0) + 16384·PRG + 8192·CHR`, but `Cartridge::load`
returns `MapperNotImplemented`, not `TooShort`, because the mapper
dispatch precedes the length check. -/
theorem c9_too_short_counterexample :
    c9Rom.length < expectedRomSize c9Rom ∧
    Cartridge.load c9Rom = Except.error RomParserError.MapperNotImplemented ∧
    Cartridge.load c9Rom ≠ Except.error RomParserError.TooShort := by
  have hload : Cartridge.load c9Rom = Except.error RomParserError.MapperNotImplemented := rfl
  refine ⟨by decide, hload, ?_⟩
  rw [hload]
  intro h
  exact RomParserError.noConfusion (Except.error.inj h)

/-- C9 (amended): every input shorter than the expected ROM length gets
`TooShort` from `Cartridge::load`, provided it is either shorter than a
16-byte header, or carries valid magic bytes and a supported mapper id
(0, 1, 2, 3, 4 or 66); no cartridge is constructed. -/
theorem c9_load_too_short (rom : List Nat)
    (hshort : rom.length < expectedRomSize rom)
    (hok : rom.length < 16 ∨
           (validMagic rom = true ∧ supportedMapper (mapperId rom) = true)) :
    Cartridge.load rom = Except.error RomParserError.TooShort := by
  unfold Cartridge.load INesHeader.tryFrom
  by_cases h16 : rom.length < 16
  · rw [if_pos h16]
  · rw [if_neg h16]
    obtain ⟨hm, hsup⟩ : validMagic rom = true ∧ supportedMapper (mapperId rom) = true := by
      rcases hok with h | h
      · exact absurd h h16
      · exact h
    rw [if_pos hm]
    unfold expectedRomSize at hshort
    simp only [hsup, if_true]
    split_ifs at hshort ⊢ <;> simp_all

/-- Input for the C9 witness: valid magic, PRG count 1, CHR count 0,
mapper id 0, but only 16 bytes long. -/
def c9RomW : List Nat :=
  [0x4E, 0x45, 0x53, 0x1A, 1, 0, 0, 0, 0, 0, 0, 0, 0, 0, 0, 0]

/-- C9 witness: the amended theorem instantiated at `c9RomW`. -/
theorem c9_load_too_short_witness :
    Cartridge.load c9RomW = Except.error RomParserError.TooShort :=
  c9_load_too_short c9RomW (by decide) (Or.inr ⟨by decide, by decide⟩)

/-! ### Cartridge memory access (cartridge/mod.rs lines 147-181)

The `Mapper` trait implementations are not in the provided sources, so
the mapper methods are passed as function parameters.  Rust's panicking
indexing (`v[i]` with `i ≥ v.len()`, and `i % 0`) is modelled by
`Option`: `none` is a panic, `some` a completed operation. -/

inductive CartridgeReadTarget
  | PrgRam (data : Nat)
  | PrgRom (off : Nat)

/-- Method `Cartridge::read_prg_mem` (lines 147-154): a `PrgRom` offset is
reduced modulo `prg_memory.len()` before indexing; a `PrgRam` byte is
returned directly. -/
def read_prg_mem (prg_memory : List Nat) (cpu_map_read : Nat → CartridgeReadTarget)
    (addr : Nat) : Option Nat :=
  match cpu_map_read addr with
  | .PrgRom rom_addr =>
    if prg_memory.length = 0 then none
    else some (prg_memory.getD (rom_addr % prg_memory.length) 0)
  | .PrgRam data => some data

/-- Method `Cartridge::read_chr_mem` (lines 160-163): the mapper-produced offset
is reduced modulo `chr_memory.len()` before indexing. -/
def read_chr_mem (chr_memory : List Nat) (ppu_map_read : Nat → Nat)
    (addr : Nat) : Option Nat :=
  let a := ppu_map_read addr
  if chr_memory.length = 0 then none
  else some (chr_memory.getD (a % chr_memory.length) 0)

/-- Method `Cartridge::write_chr_mem` (lines 165-181): when the cartridge uses
CHR-RAM and the mapper maps the write, `chr_memory[addr] = data` indexes
at the raw mapper offset with NO modulo reduction; otherwise the write
is logged and dropped. -/
def write_chr_mem (chr_ram : Bool) (chr_memory : List Nat)
    (ppu_map_write : Nat → Option Nat) (addr data : Nat) : Option (List Nat) :=
  if chr_ram then
    match ppu_map_write addr with
    | some a =>
      if a < chr_memory.length then some (chr_memory.set a data) else none
    | none => some chr_memory
  else some chr_memory

/-- C10: a CHR-RAM write through a mapped offset is panic-free exactly
when the offset is below `chr_memory.len()` (no modulo reduction is
applied), while `read_chr_mem` and `read_prg_mem` reduce every
mapper-produced offset modulo the array length and are total for every
address once the arrays are non-empty. -/
theorem c10_chr_write_unchecked_reads_total
    (chr_memory prg_memory : List Nat)
    (ppu_map_write : Nat → Option Nat) (ppu_map_read : Nat → Nat)
    (cpu_map_read : Nat → CartridgeReadTarget)
    (addr data off : Nat)
    (hmap : ppu_map_write addr = some off)
    (hchr : chr_memory.length ≠ 0) (hprg : prg_memory.length ≠ 0) :
    ((write_chr_mem true chr_memory ppu_map_write addr data).isSome
       ↔ off < chr_memory.length) ∧
    (read_chr_mem chr_memory ppu_map_read addr).isSome = true ∧
    (read_prg_mem prg_memory cpu_map_read addr).isSome = true := by
  refine ⟨?_, ?_, ?_⟩
  · unfold write_chr_mem
    rw [if_pos rfl, hmap]
    by_cases h : off < chr_memory.length
    · simp [h]
    · simp [h]
  · unfold read_chr_mem
    simp [hchr]
  · unfold read_prg_mem
    cases cpu_map_read addr <;> simp [hprg]

/-- Concrete mapper functions for the C10 witness: every PPU write maps
to offset 2, every PPU read to the address itself, every CPU read to a
ROM offset equal to the address. -/
def ppuMapWriteW : Nat → Option Nat := fun _ => some 2
def ppuMapReadW : Nat → Nat := fun a => a
def cpuMapReadW : Nat → CartridgeReadTarget := fun a => .PrgRom a

/-- C10 witness: the theorem instantiated at one-byte CHR and PRG
arrays with a mapper that maps writes to the out-of-range offset 2. -/
theorem c10_chr_write_unchecked_reads_total_witness :
    ((write_chr_mem true [7] ppuMapWriteW 0 1).isSome ↔ 2 < [7].length) ∧
    (read_chr_mem [7] ppuMapReadW 0).isSome = true ∧
    (read_prg_mem [9] cpuMapReadW 0).isSome = true :=
  c10_chr_write_unchecked_reads_total [7] [9] ppuMapWriteW ppuMapReadW cpuMapReadW
    0 1 2 rfl (by decide) (by decide)

end Nestadia
